import Mathlib

/-
Verification of the voice-assistant repository: the continuous listener
(wake_word_detector.py) and the multi-engine TTS dispatcher
(tts_engines.py, voice_models.py), shallowly embedded in Lean.
-/

namespace Voice

/- ===================================================================
   Wake-word matching  (wake_word_detector.py)

   __init__ (line 38):   self.wake_words = [word.lower() for word in wake_words]
   _contains_wake_word (lines 94-97):
       text_lower = text.lower()
       return any(wake_word in text_lower for wake_word in self.wake_words)
   Python str.lower / `in` are modelled on lists of characters.
   =================================================================== -/

/-- Python str.lower, on the character list of a string. -/
def lowerChars (s : List Char) : List Char := s.map Char.toLower

/-- needle is an initial segment of the haystack (helper for substring test). -/
def charsPrefixOf : List Char → List Char → Bool
  | [], _ => true
  | _ :: _, [] => false
  | a :: as, b :: bs => a == b && charsPrefixOf as bs

/-- Python substring containment `needle in hay` on character lists. -/
def containsSub (needle : List Char) : List Char → Bool
  | [] => needle.isEmpty
  | b :: bs => charsPrefixOf needle (b :: bs) || containsSub needle bs

/-- The constructor lowercases every configured wake word (line 38). -/
def wakeWordsInit (ws : List (List Char)) : List (List Char) := ws.map lowerChars

/-- WakeWordDetector._contains_wake_word (lines 94-97): lowercase the text,
then test each stored wake word for substring containment. -/
def containsWakeWord (wake_words : List (List Char)) (text : List Char) : Bool :=
  wake_words.any (fun w => containsSub w (lowerChars text))

/- ===================================================================
   The listener worker loop  (wake_word_detector.py _listen_loop,
   lines 154-184) over a finite trace of iteration inputs.

   Each loop iteration either reads a chunk (classified speech/silence
   by _is_speech), raises a read error (caught: logged + 0.1 s sleep),
   or observes the cooperative stop flag set by stop_continuous_listening.
   Chunks are identified by a Nat so buffer contents can be traced.
   =================================================================== -/

inductive ChunkInput where
  | chunk (id : Nat) (isSpeech : Bool)
  | readError
  | stopSignal
  deriving DecidableEq, Repr

inductive LoopEvent where
  | speechActivity
  | flushSeg (segment : List Nat)
  | errorLogged
  | backoff
  | errorReport
  deriving DecidableEq, Repr

structure LoopState where
  buffer : List Nat
  speechDetected : Bool
  listening : Bool
  deriving DecidableEq, Repr

/-- Line 179-180: `if len(audio_buffer) > 50: audio_buffer = audio_buffer[-50:]`. -/
def truncateBuffer (buf : List Nat) : List Nat :=
  if 50 < buf.length then buf.drop (buf.length - 50) else buf

/-- One iteration of the body of _listen_loop (lines 159-184).  A speech
chunk is appended to the buffer and fires on_speech_detected; a silence
chunk after detected speech flushes the buffer to _process_speech_buffer;
the size cap is applied after either branch; a read error is logged and
followed by time.sleep(0.1). -/
def listenStep (st : LoopState) (inp : ChunkInput) : LoopState × List LoopEvent :=
  match inp with
  | .readError => (st, [.errorLogged, .backoff])
  | .stopSignal => ({ st with listening := false }, [])
  | .chunk id isSp =>
    let (st1, evs) :=
      if isSp then
        ({ st with buffer := st.buffer ++ [id], speechDetected := true },
         [LoopEvent.speechActivity])
      else if st.speechDetected && !st.buffer.isEmpty then
        ({ st with buffer := [], speechDetected := false },
         [LoopEvent.flushSeg st.buffer])
      else
        (st, [])
    ({ st1 with buffer := truncateBuffer st1.buffer }, evs)

/-- Run the loop over a trace of inputs; the while condition re-checks the
listening flag at the top of each iteration, so inputs after the flag is
cleared are not processed.  Returns final state, emitted events, and the
number of iterations executed. -/
def listenRun : LoopState → List ChunkInput → LoopState × List LoopEvent × Nat
  | st, [] => (st, [], 0)
  | st, inp :: rest =>
    if st.listening then
      let (st1, evs) := listenStep st inp
      let (st2, evs2, n) := listenRun st1 rest
      (st2, evs ++ evs2, n + 1)
    else
      (st, [], 0)

/-- State at entry to _listen_loop (lines 156-157). -/
def initLoopState : LoopState := { buffer := [], speechDetected := false, listening := true }

/-- A run of n speech-classified chunks with identities 0..n-1. -/
def speechChunks (ids : List Nat) : List ChunkInput :=
  ids.map (fun i => ChunkInput.chunk i true)

def isFlushEvent : LoopEvent → Bool
  | .flushSeg _ => true
  | _ => false

/- ===================================================================
   Voice catalogs  (voice_models.py): the key sets of the XTTS_SPEAKERS,
   BARK_SPEAKERS and PIPER_MODELS dictionaries.  Only key membership is
   consulted by tts_engines.py, so the catalogs are embedded as the key
   lists (PIPER_MODELS includes the en_GB_southern_english_female_low
   entry added by the update at the bottom of voice_models.py).
   =================================================================== -/

def XTTS_SPEAKERS : List String :=
  ["Claribel Dervla", "Andrew Chipper", "Ana Florence", "Damien Black", "Sofia Hellen",
   "Emily", "George", "Charlotte", "Oliver", "Isabella",
   "Emma", "Jacob", "Madison", "William", "Abigail",
   "Sophie", "Klaus", "Lucia", "Hans", "Nina",
   "Carlos", "Maria", "Raj", "Priya", "Yuki",
   "Taylor", "Jordan", "Casey", "Alex", "River",
   "Eleanor", "Bernard", "Margaret", "Theodore", "Victoria",
   "Narrator", "Storyteller", "Professor", "Guide", "Host",
   "Austin", "Belle", "Dakota", "Phoenix", "Brooklyn",
   "Seamus", "Siobhan", "Hamish", "Fiona", "Rhys",
   "Echo", "Sage", "Nova", "Atlas", "Luna",
   "Executive", "Director", "Consultant", "Analyst", "Coordinator"]

def BARK_SPEAKERS : List String :=
  ["v2/en_speaker_0", "v2/en_speaker_1", "v2/en_speaker_2", "v2/en_speaker_3",
   "v2/en_speaker_4", "v2/en_speaker_5", "v2/en_speaker_6", "v2/en_speaker_7",
   "v2/en_speaker_8", "v2/en_speaker_9"]

def PIPER_MODELS : List String :=
  ["en_GB_alba_medium", "en_GB_cori_medium", "en_GB_jenny_dioco_medium",
   "en_GB_northern_english_male_medium", "en_GB_southern_english_female_low"]

/- ===================================================================
   Voice resolution and speak dispatch  (tts_engines.py).

   Python optional-string parameters default to None and are tested for
   truthiness (None and "" are both falsy), modelled by pyTruthy.
   =================================================================== -/

def pyTruthy : Option String → Bool
  | none => false
  | some s => !s.isEmpty

inductive CoquiVoice where
  | cloned (path : String)
  | speaker (v : String)
  | defaultVoice
  deriving DecidableEq, Repr

/-- Branch structure of CoquiEngine.synthesize (lines 88-111): cloning when
clone_voice_path is truthy and the file exists, else the built-in speaker
when voice_id is truthy and a key of XTTS_SPEAKERS, else default synthesis. -/
def coquiVoiceSelection (voice_id clone_voice_path : Option String)
    (cloneFileExists : Bool) : CoquiVoice :=
  if pyTruthy clone_voice_path && cloneFileExists then
    .cloned (clone_voice_path.getD "")
  else if pyTruthy voice_id && decide ((voice_id.getD "") ∈ XTTS_SPEAKERS) then
    .speaker (voice_id.getD "")
  else
    .defaultVoice

/-- BarkEngine.synthesize voice choice (lines 147-150): the preset when
voice_id is truthy and a key of BARK_SPEAKERS, else "v2/en_speaker_2". -/
def barkHistoryPrompt (voice_id : Option String) : String :=
  if pyTruthy voice_id && decide ((voice_id.getD "") ∈ BARK_SPEAKERS) then
    voice_id.getD ""
  else
    "v2/en_speaker_2"

/-- PiperEngine.synthesize default (lines 198-199): `if not voice_id:
voice_id = "en_GB_cori_medium"`. -/
def piperResolveVoice (voice_id : Option String) : String :=
  if pyTruthy voice_id then voice_id.getD "" else "en_GB_cori_medium"

/-- PiperEngine._download_model (lines 176-179) raises ValueError when the
voice is not a key of PIPER_MODELS; otherwise it ensures the model file. -/
def piperDownloadModel (v : String) : Except String String :=
  if decide (v ∈ PIPER_MODELS) then .ok v else .error ("Unknown Piper voice: " ++ v)

/-- The voice identifier that a nominal synthesize call ends up using
(every external model operation assumed to succeed), or the message of the
exception it raises.  The coqui default branch passes no speaker argument;
it is represented by the marker "coqui-default-synthesis". -/
def engineSynthesize (engine : String) (voice_id clone_voice_path : Option String)
    (cloneFileExists : Bool) : Except String String :=
  if engine = "coqui" then
    .ok (match coquiVoiceSelection voice_id clone_voice_path cloneFileExists with
         | .cloned p => "coqui-clone:" ++ p
         | .speaker v => v
         | .defaultVoice => "coqui-default-synthesis")
  else if engine = "bark" then
    .ok (barkHistoryPrompt voice_id)
  else if engine = "piper" then
    piperDownloadModel (piperResolveVoice voice_id)
  else
    .error ("Unknown engine: " ++ engine)

/-- TTSEngineManager.speak (lines 46-57): dispatch to the engine, catch any
exception and return None. -/
def speak (engine : String) (voice_id clone_voice_path : Option String)
    (cloneFileExists : Bool) : Option String :=
  match engineSynthesize engine voice_id clone_voice_path cloneFileExists with
  | .ok audio => some audio
  | .error _ => none

/- ===================================================================
   Lazy model load and the fate of a failed load
   (CoquiEngine._load_model, lines 66-77; synthesize line 82).

   self.model starts None and is assigned only on a successful load, so a
   failed load leaves the handle in its unloaded state.  The loader is
   assumed deterministic: loadOk says whether TTS(...) succeeds.
   =================================================================== -/

structure CoquiEngineState where
  model : Option Unit
  deriving DecidableEq, Repr

inductive CallResult where
  | ok
  | err
  deriving DecidableEq, Repr

/-- CoquiEngine._load_model: `if self.model is None:` attempt the load;
returns (new state, raised?, number of load attempts made by this call). -/
def coquiLoadModel (loadOk : Bool) (s : CoquiEngineState) :
    CoquiEngineState × Bool × Nat :=
  match s.model with
  | some _ => (s, false, 0)
  | none => if loadOk then ({ model := some () }, false, 1) else (s, true, 1)

/-- A synthesize call as seen by the load state: it begins with
self._load_model() (line 82) and errors iff the load raises. -/
def coquiSynthesizeCall (loadOk : Bool) (s : CoquiEngineState) :
    CoquiEngineState × CallResult × Nat :=
  let (s1, raised, n) := coquiLoadModel loadOk s
  (s1, if raised then .err else .ok, n)

/-- n successive synthesize calls against one engine handle (the manager
memoizes the engine object in self.engines, lines 34-44, so every call
reaches the same handle).  Returns final state, per-call results, and the
total number of load attempts. -/
def coquiCalls (loadOk : Bool) : Nat → CoquiEngineState × List CallResult × Nat
  | 0 => ({ model := none }, [], 0)
  | n + 1 =>
    let (s, rs, a) := coquiCalls loadOk n
    let (s1, r, a1) := coquiSynthesizeCall loadOk s
    (s1, rs ++ [r], a + a1)

/- ===================================================================
   Temporary-file lifecycle of the three synthesize methods
   (tts_engines.py lines 84-121, 144-170, 196-230).

   The file system is a list of paths.  tempfile.NamedTemporaryFile
   (delete=False) creates the temp file; the try/finally unlinks it when
   it exists.  Each fallible external operation is a Boolean outcome
   flag; operations before the temp file is created raise before any
   file exists, operations inside the try raise into the finally.
   =================================================================== -/

/-- The finally clause `if os.path.exists(output_path): os.unlink(output_path)`. -/
def unlinkIfExists (fs : List String) (p : String) : List String :=
  if p ∈ fs then fs.erase p else fs

/-- CoquiEngine.synthesize: _load_model (line 82) precedes temp creation;
tts_to_file and the file read run inside try, cleanup in finally. -/
def coquiSynthTemp (loadOk ttsOk readOk : Bool) (fs : List String) (tmp : String) :
    Except Unit Unit × List String :=
  if !loadOk then (.error (), fs)
  else
    let fs1 := tmp :: fs
    let result : Except Unit Unit :=
      if !ttsOk then .error () else if !readOk then .error () else .ok ()
    (result, unlinkIfExists fs1 tmp)

/-- BarkEngine.synthesize: _load_model (line 144) and generate_audio
(line 153) both precede temp creation; wavfile.write and the read run
inside try, cleanup in finally. -/
def barkSynthTemp (loadOk genOk writeOk readOk : Bool) (fs : List String) (tmp : String) :
    Except Unit Unit × List String :=
  if !loadOk then (.error (), fs)
  else if !genOk then (.error (), fs)
  else
    let fs1 := tmp :: fs
    let result : Except Unit Unit :=
      if !writeOk then .error () else if !readOk then .error () else .ok ()
    (result, unlinkIfExists fs1 tmp)

/-- PiperEngine.synthesize: _download_model (line 201, may raise ValueError
or a download error) precedes temp creation; the piper subprocess and the
read run inside try, cleanup in finally. -/
def piperSynthTemp (downloadOk procOk readOk : Bool) (fs : List String) (tmp : String) :
    Except Unit Unit × List String :=
  if !downloadOk then (.error (), fs)
  else
    let fs1 := tmp :: fs
    let result : Except Unit Unit :=
      if !procOk then .error () else if !readOk then .error () else .ok ()
    (result, unlinkIfExists fs1 tmp)

/- ===================================================================
   Concurrent first use of a backend  (tts_engines.py lines 32-44 and
   66-77).  Neither get_engine nor _load_model takes a lock: each thread
   performs an unguarded check of `self.model is None` followed, when the
   check saw None, by the load assignment.  Interleavings of the two
   threads are explicit schedules; loads counts load attempts started.
   =================================================================== -/

inductive Tid where
  | ta
  | tb
  deriving DecidableEq, Repr

structure RaceState where
  model : Option Unit
  pcA : Nat
  obsA : Bool
  pcB : Nat
  obsB : Bool
  loads : Nat
  deriving DecidableEq, Repr

def raceInit : RaceState :=
  { model := none, pcA := 0, obsA := false, pcB := 0, obsB := false, loads := 0 }

/-- One scheduler step: the chosen thread executes its next statement of
_load_model — first the `self.model is None` check, then (only if the
check observed None) the load and assignment `self.model = TTS(...)`. -/
def raceStep (s : RaceState) (t : Tid) : RaceState :=
  match t with
  | .ta =>
    if s.pcA = 0 then { s with obsA := s.model.isNone, pcA := 1 }
    else if s.pcA = 1 then
      if s.obsA then { s with model := some (), loads := s.loads + 1, pcA := 2 }
      else { s with pcA := 2 }
    else s
  | .tb =>
    if s.pcB = 0 then { s with obsB := s.model.isNone, pcB := 1 }
    else if s.pcB = 1 then
      if s.obsB then { s with model := some (), loads := s.loads + 1, pcB := 2 }
      else { s with pcB := 2 }
    else s

def raceRun (sched : List Tid) : RaceState := sched.foldl raceStep raceInit

/- ===================================================================
   Listener lifecycle control  (wake_word_detector.py lines 66-92,
   113-152): permission_granted and is_listening flags, the
   start/stop operations, with microphone and stream availability as
   environment parameters.
   =================================================================== -/

structure ListenerCtl where
  permission_granted : Bool
  is_listening : Bool
  streamOpen : Bool
  deriving DecidableEq, Repr

def listenerInit : ListenerCtl :=
  { permission_granted := false, is_listening := false, streamOpen := false }

/-- request_microphone_permission (lines 66-92): a throwaway open/read/close
sets permission_granted on success, clears it on failure. -/
def requestPermission (micOk : Bool) (s : ListenerCtl) : ListenerCtl × Bool :=
  if micOk then ({ s with permission_granted := true }, true)
  else ({ s with permission_granted := false }, false)

/-- start_continuous_listening (lines 113-139): obtain permission when not
yet granted (failing fast when that fails), return True when already
listening, otherwise open the persistent stream and launch the worker. -/
def startContinuousListening (micOk streamOk : Bool) (s : ListenerCtl) :
    ListenerCtl × Bool :=
  let (s1, granted) :=
    if !s.permission_granted then requestPermission micOk s else (s, true)
  if !granted then (s1, false)
  else if s1.is_listening then (s1, true)
  else if streamOk then ({ s1 with streamOpen := true, is_listening := true }, true)
  else (s1, false)

/-- stop_continuous_listening (lines 141-152): clear is_listening and
close the stream; stream exceptions are swallowed, so a second call is
harmless. -/
def stopContinuousListening (s : ListenerCtl) : ListenerCtl :=
  { s with is_listening := false, streamOpen := false }

/-- Invariant of the unguarded concurrent load: the attempt counter never
exceeds the number of threads that have passed their load statement. -/
def raceInv (s : RaceState) : Prop :=
  s.loads ≤ (if 2 ≤ s.pcA then 1 else 0) + (if 2 ≤ s.pcB then 1 else 0)

/- ===================================================================
   Helper lemmas about the listener loop.
   =================================================================== -/

theorem listenRun_not_listening (st : LoopState) (l : List ChunkInput)
    (h : st.listening = false) : listenRun st l = (st, [], 0) := by
  cases l with
  | nil => rfl
  | cons inp rest => simp [listenRun, h]

theorem listenRun_cons_listening (st : LoopState) (inp : ChunkInput)
    (rest : List ChunkInput) (h : st.listening = true) :
    listenRun st (inp :: rest) =
      ((listenRun (listenStep st inp).1 rest).1,
       (listenStep st inp).2 ++ (listenRun (listenStep st inp).1 rest).2.1,
       (listenRun (listenStep st inp).1 rest).2.2 + 1) := by
  rcases hs : listenStep st inp with ⟨st1, evs⟩
  rcases hr : listenRun st1 rest with ⟨st2, evs2, n⟩
  simp [listenRun, h, hs, hr]

theorem truncateBuffer_eq_drop (buf : List Nat) :
    truncateBuffer buf = buf.drop (buf.length - 50) := by
  unfold truncateBuffer
  split
  · rfl
  · rename_i hle
    have h0 : buf.length - 50 = 0 := by omega
    simp [h0]

theorem listenStep_keeps_listening (st : LoopState) (inp : ChunkInput)
    (h : inp ≠ ChunkInput.stopSignal) :
    (listenStep st inp).1.listening = st.listening := by
  cases inp with
  | chunk id isSp =>
    simp only [listenStep]
    split
    · simp
    · split <;> simp
  | readError => rfl
  | stopSignal => exact absurd rfl h

/-- Behaviour of the loop over a run of speech-classified chunks starting
from any listening state whose buffer respects the size cap: the final
buffer is the capped trailing window of the old buffer followed by the new
chunk ids, the loop keeps listening, and nothing is flushed. -/
theorem speechRun_spec (ids : List Nat) :
    ∀ (buf : List Nat) (sd : Bool), buf.length ≤ 50 →
      ((listenRun { buffer := buf, speechDetected := sd, listening := true }
          (speechChunks ids)).1).buffer
          = (buf ++ ids).drop (buf.length + ids.length - 50) ∧
      ((listenRun { buffer := buf, speechDetected := sd, listening := true }
          (speechChunks ids)).1).listening = true ∧
      ((listenRun { buffer := buf, speechDetected := sd, listening := true }
          (speechChunks ids)).2.1).any isFlushEvent = false := by
  induction ids with
  | nil =>
    intro buf sd h
    have h0 : buf.length - 50 = 0 := by omega
    simp [speechChunks, listenRun, h0]
  | cons i is ih =>
    intro buf sd h
    have hstep : listenStep { buffer := buf, speechDetected := sd, listening := true }
        (ChunkInput.chunk i true) =
        ({ buffer := truncateBuffer (buf ++ [i]), speechDetected := true,
           listening := true }, [LoopEvent.speechActivity]) := by
      simp [listenStep]
    have hcons := listenRun_cons_listening
      { buffer := buf, speechDetected := sd, listening := true }
      (ChunkInput.chunk i true) (speechChunks is) rfl
    have htr : truncateBuffer (buf ++ [i])
        = (buf ++ [i]).drop (buf.length + 1 - 50) := by
      rw [truncateBuffer_eq_drop]
      simp
    have hlen : (truncateBuffer (buf ++ [i])).length ≤ 50 := by
      rw [htr]
      simp only [List.length_drop, List.length_append, List.length_singleton]
      omega
    obtain ⟨hbuf, hlisten, hflush⟩ := ih (truncateBuffer (buf ++ [i])) true hlen
    have hassoc : (buf ++ [i]) ++ is = buf ++ i :: is := by
      rw [List.append_assoc, List.singleton_append]
    have hd1 : buf.length + 1 - 50 ≤ (buf ++ [i]).length := by
      simp only [List.length_append, List.length_singleton]
      omega
    refine ⟨?_, ?_, ?_⟩
    · show ((listenRun _ (speechChunks (i :: is))).1).buffer = _
      rw [show speechChunks (i :: is)
            = ChunkInput.chunk i true :: speechChunks is from rfl, hcons]
      simp only [hstep]
      rw [hbuf, htr]
      rw [← List.drop_append_of_le_length hd1, List.drop_drop, hassoc]
      have hnum : buf.length + 1 - 50 +
          (((buf ++ [i]).drop (buf.length + 1 - 50)).length + is.length - 50)
          = buf.length + (i :: is).length - 50 := by
        simp only [List.length_drop, List.length_append, List.length_singleton,
          List.length_cons, List.length_nil]
        omega
      rw [hnum]
    · rw [show speechChunks (i :: is)
            = ChunkInput.chunk i true :: speechChunks is from rfl, hcons]
      simp only [hstep]
      exact hlisten
    · rw [show speechChunks (i :: is)
            = ChunkInput.chunk i true :: speechChunks is from rfl, hcons]
      simp only [hstep]
      simp [isFlushEvent, hflush]

theorem listenRun_append (l1 l2 : List ChunkInput) :
    ∀ st : LoopState,
      (listenRun st (l1 ++ l2)).1 = (listenRun (listenRun st l1).1 l2).1 ∧
      (listenRun st (l1 ++ l2)).2.1
        = (listenRun st l1).2.1 ++ (listenRun (listenRun st l1).1 l2).2.1 := by
  induction l1 with
  | nil => intro st; simp [listenRun]
  | cons inp rest ih =>
    intro st
    by_cases h : st.listening = true
    · rw [List.cons_append, listenRun_cons_listening st inp (rest ++ l2) h,
        listenRun_cons_listening st inp rest h]
      obtain ⟨h1, h2⟩ := ih (listenStep st inp).1
      refine ⟨by simpa using h1, ?_⟩
      simp [h2, List.append_assoc]
    · have hf : st.listening = false := by
        cases hsl : st.listening
        · rfl
        · exact absurd hsl h
      rw [listenRun_not_listening st (inp :: rest ++ l2) hf,
        listenRun_not_listening st (inp :: rest) hf,
        listenRun_not_listening st l2 hf]
      simp

set_option maxRecDepth 10000

/-- C3 counterexample: a run of 52 speech-classified chunks exceeds the
maximum segment bound of 50, yet the worker loop never flushes — the code
at lines 178-180 only truncates the buffer when the bound is exceeded and
_process_speech_buffer is reached solely from the speech-ended branch
(lines 172-176). -/
theorem bound_exceeded_no_flush_counterexample :
    50 < (speechChunks (List.range 52)).length ∧
    ((listenRun initLoopState (speechChunks (List.range 52))).2.1).any isFlushEvent
      = false :=
  ⟨by decide, by decide⟩

/-- C3 amended: the accumulating segment is flushed exactly when a
silence-classified chunk is read while speech had been detected and the
buffer is non-empty; exceeding the maximum chunk bound does not flush, it
only truncates the buffer. -/
theorem flush_iff_silence_after_speech (st : LoopState) (inp : ChunkInput) :
    ((listenStep st inp).2.any isFlushEvent = true) ↔
      ((∃ id, inp = ChunkInput.chunk id false) ∧ st.speechDetected = true ∧
        st.buffer ≠ []) := by
  cases inp with
  | readError => simp [listenStep, isFlushEvent]
  | stopSignal => simp [listenStep]
  | chunk id isSp =>
    cases isSp
    · by_cases hsd : st.speechDetected = true
      · by_cases hb : st.buffer = []
        · simp [listenStep, isFlushEvent, hsd, hb]
        · simp [listenStep, isFlushEvent, hsd, hb]
      · have hsd0 : st.speechDetected = false := by
          cases hs : st.speechDetected
          · rfl
          · exact absurd hs hsd
        simp [listenStep, isFlushEvent, hsd0]
    · simp [listenStep, isFlushEvent]

/-- C4: during a run of N speech-classified chunks with N greater than the
bound of 50, after each loop iteration i the buffer holds exactly the
most recent chunks, in order: it equals the i-th prefix of the run with
all but the trailing 50 chunks dropped, and from iteration 50 on its
length is pinned at 50. -/
theorem sliding_window_truncation (N i : Nat) (hN : 50 < N) (hi : i ≤ N) :
    ((listenRun initLoopState (speechChunks ((List.range N).take i))).1).buffer
        = ((List.range N).take i).drop (i - 50) ∧
    (50 ≤ i →
      (((listenRun initLoopState (speechChunks ((List.range N).take i))).1).buffer).length
        = 50) := by
  have htake : (List.range N).take i = List.range i := by
    rw [List.take_range, Nat.min_eq_left hi]
  obtain ⟨hbuf, -, -⟩ := speechRun_spec (List.range i) [] false (by simp)
  have hbuf2 : ((listenRun initLoopState (speechChunks (List.range i))).1).buffer
      = (List.range i).drop (i - 50) := by
    simpa [initLoopState] using hbuf
  rw [htake]
  refine ⟨hbuf2, fun h50 => ?_⟩
  rw [hbuf2]
  simp only [List.length_drop, List.length_range]
  omega

/-- Witness for C4 at the concrete run 0..51: the buffer is the trailing
window [2..51] of length 50. -/
theorem sliding_window_truncation_witness :
    ((listenRun initLoopState (speechChunks ((List.range 52).take 52))).1).buffer
        = ((List.range 52).take 52).drop (52 - 50) ∧
    (((listenRun initLoopState (speechChunks ((List.range 52).take 52))).1).buffer).length
        = 50 :=
  ⟨(sliding_window_truncation 52 52 (by decide) (by decide)).1,
   (sliding_window_truncation 52 52 (by decide) (by decide)).2 (by decide)⟩

/-- C10: the worker loop flushes only at a silence-classified read after
speech, so when sustained speech is terminated by the stop flag the
buffered chunks are discarded: the run emits no flush, yet ends stopped
with a non-empty buffer that is never transcribed. -/
theorem buffered_speech_discarded_on_stop (ids : List Nat) (h : ids ≠ []) :
    ((listenRun initLoopState (speechChunks ids ++ [ChunkInput.stopSignal])).2.1).any
        isFlushEvent = false ∧
    ((listenRun initLoopState (speechChunks ids ++ [ChunkInput.stopSignal])).1).buffer
        ≠ [] ∧
    ((listenRun initLoopState (speechChunks ids ++ [ChunkInput.stopSignal])).1).listening
        = false := by
  obtain ⟨hbuf, hlisten, hflush⟩ := speechRun_spec ids [] false (by simp)
  have hinit : initLoopState
      = { buffer := [], speechDetected := false, listening := true } := rfl
  obtain ⟨hA, hE⟩ := listenRun_append (speechChunks ids) [ChunkInput.stopSignal]
    initLoopState
  rw [hinit] at hA hE ⊢
  set s1 := (listenRun { buffer := [], speechDetected := false, listening := true }
    (speechChunks ids)).1 with hs1
  have hstop : listenRun s1 [ChunkInput.stopSignal]
      = ({ s1 with listening := false }, [], 1) := by
    rw [listenRun_cons_listening s1 ChunkInput.stopSignal [] hlisten]
    simp [listenStep, listenRun]
  have hbuf1 : s1.buffer = ids.drop (ids.length - 50) := by simpa using hbuf
  refine ⟨?_, ?_, ?_⟩
  · rw [hE, hstop]
    simp [hflush]
  · rw [hA, hstop]
    show s1.buffer ≠ []
    rw [hbuf1]
    intro hnil
    rw [List.drop_eq_nil_iff] at hnil
    have : ids.length ≠ 0 := fun h0 => h (List.length_eq_zero.mp h0)
    omega
  · rw [hA, hstop]

/-- Witness for C10 at the two-chunk speech run [7, 8] cut off by stop. -/
theorem buffered_speech_discarded_on_stop_witness :
    ((listenRun initLoopState (speechChunks [7, 8] ++ [ChunkInput.stopSignal])).2.1).any
        isFlushEvent = false ∧
    ((listenRun initLoopState (speechChunks [7, 8] ++ [ChunkInput.stopSignal])).1).buffer
        ≠ [] ∧
    ((listenRun initLoopState (speechChunks [7, 8] ++ [ChunkInput.stopSignal])).1).listening
        = false :=
  buffered_speech_discarded_on_stop [7, 8] (by decide)

theorem listenStep_event_counts (st : LoopState) (inp : ChunkInput) :
    (listenStep st inp).2.count LoopEvent.errorLogged
        = (if inp = ChunkInput.readError then 1 else 0) ∧
    (listenStep st inp).2.count LoopEvent.backoff
        = (if inp = ChunkInput.readError then 1 else 0) ∧
    (listenStep st inp).2.count LoopEvent.errorReport = 0 := by
  cases inp with
  | readError => refine ⟨?_, ?_, ?_⟩ <;> simp [listenStep]
  | stopSignal => refine ⟨?_, ?_, ?_⟩ <;> simp [listenStep]
  | chunk id isSp =>
    refine ⟨?_, ?_, ?_⟩ <;>
      · simp only [listenStep]
        split
        · simp [List.count_cons]
        · split <;> simp [List.count_cons]

theorem loop_counts (inputs : List ChunkInput) :
    ∀ st : LoopState, st.listening = true → ChunkInput.stopSignal ∉ inputs →
      (listenRun st inputs).2.2 = inputs.length ∧
      (listenRun st inputs).2.1.count LoopEvent.errorLogged
          = inputs.count ChunkInput.readError ∧
      (listenRun st inputs).2.1.count LoopEvent.backoff
          = inputs.count ChunkInput.readError ∧
      (listenRun st inputs).2.1.count LoopEvent.errorReport = 0 := by
  induction inputs with
  | nil => intro st h hns; simp [listenRun]
  | cons inp rest ih =>
    intro st h hns
    have hne : inp ≠ ChunkInput.stopSignal := fun e => hns (e ▸ List.mem_cons_self inp rest)
    have hrest : ChunkInput.stopSignal ∉ rest := fun m => hns (List.mem_cons_of_mem _ m)
    have hls : (listenStep st inp).1.listening = true := by
      rw [listenStep_keeps_listening st inp hne, h]
    obtain ⟨hn, hl, hb, hr⟩ := ih (listenStep st inp).1 hls hrest
    obtain ⟨cl, cb, cr⟩ := listenStep_event_counts st inp
    rw [listenRun_cons_listening st inp rest h]
    have hcnt : (inp :: rest).count ChunkInput.readError
        = rest.count ChunkInput.readError
          + (if inp = ChunkInput.readError then 1 else 0) := by
      rw [List.count_cons]
      simp [beq_iff_eq]
    refine ⟨by simp [hn], ?_, ?_, ?_⟩ <;>
      simp only [List.count_append, cl, cb, cr, hl, hb, hr, hcnt, List.length_cons] <;>
      omega

/-- C6 counterexample: the loop survives three consecutive read failures
but reports nothing through an error callback — the code of _listen_loop
(lines 159-184) keeps no count of consecutive failures and invokes no
callback in its exception handler, so the number of reports is 0, not
exactly 1. -/
theorem read_failure_report_counterexample :
    (listenRun initLoopState
        [ChunkInput.readError, ChunkInput.readError, ChunkInput.readError]).2.1.count
      LoopEvent.errorReport = 0 ∧
    ¬ ((listenRun initLoopState
        [ChunkInput.readError, ChunkInput.readError, ChunkInput.readError]).2.1.count
      LoopEvent.errorReport = 1) :=
  ⟨by decide, by decide⟩

/-- C6 amended: an error in a single iteration is logged and followed by a
short backoff and the loop continues — it executes one iteration per input
and never exits early on an error; only the stop flag ends it.  No
error-callback report mechanism exists in the loop, so the number of
reports is always zero (not one after three consecutive read failures). -/
theorem loop_error_resilience (inputs : List ChunkInput)
    (h : ChunkInput.stopSignal ∉ inputs) :
    (listenRun initLoopState inputs).2.2 = inputs.length ∧
    (listenRun initLoopState inputs).2.1.count LoopEvent.errorLogged
        = inputs.count ChunkInput.readError ∧
    (listenRun initLoopState inputs).2.1.count LoopEvent.backoff
        = inputs.count ChunkInput.readError ∧
    (listenRun initLoopState inputs).2.1.count LoopEvent.errorReport = 0 :=
  loop_counts inputs initLoopState rfl h

/-- Witness for C6 on a trace with three consecutive read failures followed
by a successfully read speech chunk. -/
theorem loop_error_resilience_witness :
    (listenRun initLoopState
        [ChunkInput.readError, ChunkInput.readError, ChunkInput.readError,
         ChunkInput.chunk 0 true]).2.2
      = [ChunkInput.readError, ChunkInput.readError, ChunkInput.readError,
         ChunkInput.chunk 0 true].length ∧
    (listenRun initLoopState
        [ChunkInput.readError, ChunkInput.readError, ChunkInput.readError,
         ChunkInput.chunk 0 true]).2.1.count LoopEvent.errorLogged
      = [ChunkInput.readError, ChunkInput.readError, ChunkInput.readError,
         ChunkInput.chunk 0 true].count ChunkInput.readError ∧
    (listenRun initLoopState
        [ChunkInput.readError, ChunkInput.readError, ChunkInput.readError,
         ChunkInput.chunk 0 true]).2.1.count LoopEvent.backoff
      = [ChunkInput.readError, ChunkInput.readError, ChunkInput.readError,
         ChunkInput.chunk 0 true].count ChunkInput.readError ∧
    (listenRun initLoopState
        [ChunkInput.readError, ChunkInput.readError, ChunkInput.readError,
         ChunkInput.chunk 0 true]).2.1.count LoopEvent.errorReport = 0 :=
  loop_error_resilience
    [ChunkInput.readError, ChunkInput.readError, ChunkInput.readError,
     ChunkInput.chunk 0 true] (by decide)

/-- C5: the wake-word decision on a transcribed text is exactly
case-insensitive substring containment of some configured phrase, and on
the concrete examples: "please say Hey Assistant now" matches the wake set
containing "hey assistant", while "hey there" does not. -/
theorem wake_word_substring_match :
    (∀ (ws : List (List Char)) (text : List Char),
        containsWakeWord (wakeWordsInit ws) text = true ↔
          ∃ w ∈ ws, containsSub (lowerChars w) (lowerChars text) = true) ∧
    containsWakeWord (wakeWordsInit [String.data "hey assistant"])
        (String.data "please say Hey Assistant now") = true ∧
    containsWakeWord (wakeWordsInit [String.data "hey assistant"])
        (String.data "hey there") = false := by
  refine ⟨fun ws text => ?_, by decide, by decide⟩
  rw [containsWakeWord, wakeWordsInit, List.any_map, List.any_eq_true]
  simp [Function.comp]

/-- C1 counterexample: a speak call on the piper backend with a voice_id
that is not in the piper catalog does not fall back to the default voice —
PiperEngine._download_model raises ValueError (lines 178-179), which
TTSEngineManager.speak converts to None, i.e. no audio. -/
theorem piper_unknown_voice_counterexample :
    speak "piper" (some "not-in-catalog") none false = none := by decide

/-- C1 amended: an absent or unrecognized voice_id falls back to the
backend default for coqui and bark; for piper only an absent (or empty,
hence falsy) voice_id falls back to the default en_GB_cori_medium, while a
non-empty unrecognized voice_id makes the call fail with no audio. -/
theorem voice_fallback_amended :
    (∀ v : String, v ∉ XTTS_SPEAKERS →
        speak "coqui" (some v) none false = some "coqui-default-synthesis") ∧
    (∀ v : String, v ∉ BARK_SPEAKERS →
        speak "bark" (some v) none false = some "v2/en_speaker_2") ∧
    speak "piper" none none false = some "en_GB_cori_medium" ∧
    (∀ v : String, v ≠ "" → v ∉ PIPER_MODELS →
        speak "piper" (some v) none false = none) := by
  refine ⟨?_, ?_, by decide, ?_⟩
  · intro v hv
    simp [speak, engineSynthesize, coquiVoiceSelection, pyTruthy, hv]
  · intro v hv
    simp [speak, engineSynthesize, barkHistoryPrompt, pyTruthy, hv]
  · intro v hne hv
    have hie : v.isEmpty = false := by
      cases hIE : v.isEmpty
      · rfl
      · exact absurd ((String.isEmpty_iff v).mp hIE) hne
    simp [speak, engineSynthesize, piperResolveVoice, piperDownloadModel, pyTruthy,
      hie, hv]

/-- Witness for C1 amended at concrete unknown voices. -/
theorem voice_fallback_amended_witness :
    speak "coqui" (some "not-in-catalog") none false = some "coqui-default-synthesis" ∧
    speak "bark" (some "not-in-catalog") none false = some "v2/en_speaker_2" ∧
    speak "piper" none none false = some "en_GB_cori_medium" ∧
    speak "piper" (some "not-a-piper-voice") none false = none :=
  ⟨voice_fallback_amended.1 "not-in-catalog" (by decide),
   voice_fallback_amended.2.1 "not-in-catalog" (by decide),
   voice_fallback_amended.2.2.1,
   voice_fallback_amended.2.2.2 "not-a-piper-voice" (by decide) (by decide)⟩

theorem coquiCalls_false_eq (n : Nat) :
    coquiCalls false n = ({ model := none }, List.replicate n CallResult.err, n) := by
  induction n with
  | zero => rfl
  | succ n ih =>
    simp [coquiCalls, ih, coquiSynthesizeCall, coquiLoadModel, List.replicate_succ']

theorem coquiCalls_true_eq (n : Nat) (hn : 1 ≤ n) :
    coquiCalls true n = ({ model := some () }, List.replicate n CallResult.ok, 1) := by
  induction n with
  | zero => omega
  | succ n ih =>
    rcases Nat.eq_zero_or_pos n with h0 | hpos
    · subst h0; rfl
    · simp [coquiCalls, ih hpos, coquiSynthesizeCall, coquiLoadModel,
        List.replicate_succ']

/-- C2 counterexample: after the first synthesize call fails to load the
model (deterministically failing loader), a second call performs a second
load attempt — two attempts in total, not one — because _load_model
re-enters its `if self.model is None` branch (lines 66-68). -/
theorem failed_load_retried_counterexample :
    (coquiCalls false 2).2.2 = 2 ∧
    ¬ ((coquiCalls false 2).2.2 = 1) ∧
    (coquiCalls false 2).2.1 = [CallResult.err, CallResult.err] :=
  ⟨by decide, by decide, by decide⟩

/-- C2 amended: a failed load is not terminal for the handle — the model
stays unloaded and every one of n subsequent calls re-attempts the load (n
attempts in total), each surfacing an error; after a successful load no
further attempts occur (one attempt across any n ≥ 1 calls). -/
theorem load_failure_not_terminal_amended :
    (∀ n : Nat, (coquiCalls false n).2.2 = n ∧
        (coquiCalls false n).2.1 = List.replicate n CallResult.err ∧
        (coquiCalls false n).1.model = none) ∧
    (∀ n : Nat, 1 ≤ n → (coquiCalls true n).2.2 = 1 ∧
        (coquiCalls true n).2.1 = List.replicate n CallResult.ok ∧
        (coquiCalls true n).1.model = some ()) := by
  constructor
  · intro n
    rw [coquiCalls_false_eq]
    exact ⟨rfl, rfl, rfl⟩
  · intro n hn
    rw [coquiCalls_true_eq n hn]
    exact ⟨rfl, rfl, rfl⟩

/-- Witness for C2 amended at three calls. -/
theorem load_failure_not_terminal_amended_witness :
    ((coquiCalls false 3).2.2 = 3 ∧
      (coquiCalls false 3).2.1 = List.replicate 3 CallResult.err ∧
      (coquiCalls false 3).1.model = none) ∧
    ((coquiCalls true 3).2.2 = 1 ∧
      (coquiCalls true 3).2.1 = List.replicate 3 CallResult.ok ∧
      (coquiCalls true 3).1.model = some ()) :=
  ⟨load_failure_not_terminal_amended.1 3,
   load_failure_not_terminal_amended.2 3 (by decide)⟩

/-- C7 counterexample: start, stop, then start again on the same instance
returns True and leaves the instance Listening — Stopped is not terminal,
because stop_continuous_listening only clears is_listening (line 143) and
start_continuous_listening happily reopens a stream afterwards. -/
theorem stopped_not_terminal_counterexample :
    (startContinuousListening true true
        (stopContinuousListening
          (startContinuousListening true true listenerInit).1)).2 = true ∧
    (startContinuousListening true true
        (stopContinuousListening
          (startContinuousListening true true listenerInit).1)).1.is_listening
      = true :=
  ⟨by decide, by decide⟩

/-- C7 amended: stop is idempotent (calling it twice equals calling it
once), but Stopped is not terminal: on any instance whose permission was
granted, a start after a stop succeeds and returns the same instance to
Listening — no new instance is required. -/
theorem stop_idempotent_restart_amended :
    (∀ s : ListenerCtl,
        stopContinuousListening (stopContinuousListening s)
          = stopContinuousListening s) ∧
    (∀ s : ListenerCtl, s.permission_granted = true →
        (startContinuousListening true true (stopContinuousListening s)).2 = true ∧
        (startContinuousListening true true (stopContinuousListening s)).1.is_listening
          = true) := by
  constructor
  · intro s
    rfl
  · intro s h
    constructor <;>
      simp [startContinuousListening, stopContinuousListening, requestPermission, h]

/-- Witness for C7 amended at a granted, listening instance. -/
theorem stop_idempotent_restart_amended_witness :
    stopContinuousListening (stopContinuousListening
        { permission_granted := true, is_listening := true, streamOpen := true })
      = stopContinuousListening
        { permission_granted := true, is_listening := true, streamOpen := true } ∧
    (startContinuousListening true true (stopContinuousListening
        { permission_granted := true, is_listening := true, streamOpen := true })).2
      = true ∧
    (startContinuousListening true true (stopContinuousListening
        { permission_granted := true, is_listening := true,
          streamOpen := true })).1.is_listening = true :=
  ⟨stop_idempotent_restart_amended.1 _,
   (stop_idempotent_restart_amended.2 _ rfl).1,
   (stop_idempotent_restart_amended.2 _ rfl).2⟩

/-- C8: on every exit path of each of the three synthesize methods —
pre-temp-file failure, backend failure inside the try, read failure, or
success — the file system afterwards equals the file system before: no
temporary file created during the call remains. -/
theorem temp_files_cleaned_all_paths (fs : List String) (tmp : String) :
    (∀ loadOk ttsOk readOk : Bool,
        (coquiSynthTemp loadOk ttsOk readOk fs tmp).2 = fs) ∧
    (∀ loadOk genOk writeOk readOk : Bool,
        (barkSynthTemp loadOk genOk writeOk readOk fs tmp).2 = fs) ∧
    (∀ downloadOk procOk readOk : Bool,
        (piperSynthTemp downloadOk procOk readOk fs tmp).2 = fs) := by
  have herase : unlinkIfExists (tmp :: fs) tmp = fs := by
    simp [unlinkIfExists, List.erase_cons_head]
  refine ⟨?_, ?_, ?_⟩
  · intro l t r
    cases l <;> simp [coquiSynthTemp, herase]
  · intro l g w r
    cases l <;> cases g <;> simp [barkSynthTemp, herase]
  · intro d p r
    cases d <;> simp [piperSynthTemp, herase]

theorem raceStep_inv (s : RaceState) (t : Tid) (h : raceInv s) :
    raceInv (raceStep s t) := by
  unfold raceInv at h ⊢
  cases t <;> simp only [raceStep] <;> split_ifs <;> simp_all <;> omega

theorem raceRun_loads_le_two (sched : List Tid) : (raceRun sched).loads ≤ 2 := by
  have hfold : ∀ (l : List Tid) (s : RaceState), raceInv s → raceInv (l.foldl raceStep s) := by
    intro l
    induction l with
    | nil => exact fun s h => h
    | cons t ts ih => exact fun s h => ih (raceStep s t) (raceStep_inv s t h)
  have h := hfold sched raceInit (by simp [raceInv, raceInit])
  unfold raceInv at h
  unfold raceRun
  split_ifs at h <;> omega

/-- C9 counterexample: the interleaving check-A, check-B, load-A, load-B of
two first-use callers performs two load attempts, not exactly one — nothing
in get_engine (lines 32-44) or _load_model (lines 66-77) synchronizes the
check-then-load. -/
theorem duplicate_load_counterexample :
    (raceRun [Tid.ta, Tid.tb, Tid.ta, Tid.tb]).loads = 2 ∧
    ¬ ((raceRun [Tid.ta, Tid.tb, Tid.ta, Tid.tb]).loads = 1) :=
  ⟨by decide, by decide⟩

/-- C9 amended: the Unloaded-to-Loading transition is unguarded, so two
threads concurrently making the first call for a backend perform one or two
load attempts depending on the interleaving — a serialized schedule makes
exactly one, the overlapped schedule makes two — and no schedule of the two
threads makes more than two; in either case the model ends up loaded. -/
theorem unguarded_first_use_amended :
    (raceRun [Tid.ta, Tid.ta, Tid.tb, Tid.tb]).loads = 1 ∧
    (raceRun [Tid.ta, Tid.ta, Tid.tb, Tid.tb]).model = some () ∧
    (raceRun [Tid.ta, Tid.tb, Tid.ta, Tid.tb]).loads = 2 ∧
    (raceRun [Tid.ta, Tid.tb, Tid.ta, Tid.tb]).model = some () ∧
    (∀ sched : List Tid, (raceRun sched).loads ≤ 2) :=
  ⟨by decide, by decide, by decide, by decide, raceRun_loads_le_two⟩

end Voice
